import Mathlib

/-!
Shallow embedding of the brainglobe-workflows glue layer:
* `run` — the brainmapper analysis orchestrator
  (src/brainglobe_workflows/brainmapper/analyse.py), with the external
  collaborator stages (point transformation, region summarisation,
  brainrender export) passed in as fallible functions and the run's
  observable behaviour recorded as an event trace.
* `config_parser` — the CLI argument resolver
  (src/brainglobe_workflows/utils.py), over a model of the standard
  argument-parser semantics for the single option it defines.
* the cellfinder Config Loader (schema check, path derivation,
  input-file validation, output-directory creation), modelled from the
  spec because its module is not among the provided sources.
-/

namespace BrainglobeWorkflows

/-- A detected cell record: the repository only assumes it exposes three
spatial coordinate components `x`, `y`, `z`. -/
structure Cell where
  x : Int
  y : Int
  z : Int
deriving Repr, DecidableEq

/-- The `args.brainreg_paths` record consumed by `analyse.run`: three
deformation-field file paths and the region-volume CSV path. -/
structure BrainregPaths where
  deformation_field_0 : String
  deformation_field_1 : String
  deformation_field_2 : String
  volume_csv_path : String
deriving Repr, DecidableEq

/-- The `args.paths` record consumed by `analyse.run`: output file paths. -/
structure OutputPaths where
  downsampled_points : String
  atlas_points : String
  all_points_csv : String
  summary_csv : String
  brainrender_points : String
deriving Repr, DecidableEq

/-- The slice of the configuration namespace that `analyse.run` reads. -/
structure Args where
  brainreg_paths : BrainregPaths
  signal_planes_paths : List String
  orientation : String
  voxel_sizes : List String
  paths : OutputPaths
deriving Repr, DecidableEq

/-- The atlas collaborator object: `analyse.run` only reads `.resolution[0]`. -/
structure Atlas where
  name : String
  resolution : List Int
deriving Repr, DecidableEq

/-- Argument tuple of the external `transform_points_to_atlas_space` call,
in the order the source passes them. -/
structure TransformCall where
  points : List (List Int)
  signal_plane_path : String
  orientation : String
  voxel_sizes : List String
  downsampled_space : String
  atlas : Atlas
  deformation_field_paths : List String
  downsampled_points_path : String
  atlas_points_path : String
deriving Repr, DecidableEq

/-- Argument tuple of the external `summarise_points_by_atlas_region` call. -/
structure SummariseCall where
  points : List (List Int)
  transformed_points : List (List Int)
  atlas : Atlas
  volume_csv_path : String
  all_points_csv : String
  summary_csv : String
deriving Repr, DecidableEq

/-- Argument tuple of the external `export_points_to_brainrender` call. -/
structure ExportCall where
  transformed_points : List (List Int)
  resolution : Int
  brainrender_points : String
deriving Repr, DecidableEq

/-- Argument tuple of the external detection/classification stage
(signal file list, background file list, thresholds). -/
structure DetectCall where
  signal_files : List String
  background_files : List String
  thresholds : List Int
deriving Repr, DecidableEq

/-- Log levels used by the orchestrator. -/
inductive LogLevel
  | info
  | warning
deriving Repr, DecidableEq

/-- Observable events of an orchestrator run: log lines, calls into the
external collaborator stages, and file writes performed by the
orchestrator itself. -/
inductive Event
  | log (lvl : LogLevel) (msg : String)
  | callDetect (c : DetectCall)
  | callTransform (c : TransformCall)
  | callSummarise (c : SummariseCall)
  | callExport (c : ExportCall)
  | writeFile (path : String)
deriving Repr, DecidableEq

/-- The loop `cell_list = []; for cell in cells:
cell_list.append([cell.z, cell.y, cell.x])` from `analyse.run`. -/
def cellsToPointList (cells : List Cell) : List (List Int) :=
  cells.foldl (fun cell_list c => cell_list ++ [[c.z, c.y, c.x]]) []

/-- The warning message f-string of `analyse.run`, applied to
`len(points_out_of_bounds)`. -/
def oobWarning (n : Nat) : String :=
  toString n ++ " points ignored due to falling outside " ++
    "of atlas. This may be due to inaccuracies with " ++
    "cell detection or registration. Please inspect the results."

/-- `analyse.run` (src/brainglobe_workflows/brainmapper/analyse.py):
sequences the transform, summarise and export collaborator stages over a
detected-cell list, logging a checkpoint before each stage and a warning
with the out-of-bounds count after transformation.  Collaborators are
fallible (`Except`): an error value models the Python exception.  The
result is the trace of observable events together with the error that
aborted the run, if any.  Indexing `args.signal_planes_paths[0]` and
`atlas.resolution[0]` on an empty list models Python's `IndexError`. -/
def run (transform : TransformCall → Except String (List (List Int) × List (List Int)))
    (summarise : SummariseCall → Except String Unit)
    (exportPoints : ExportCall → Except String Unit)
    (args : Args) (cells : List Cell) (atlas : Atlas) (downsampled_space : String) :
    List Event × Option String :=
  let deformation_field_paths :=
    [args.brainreg_paths.deformation_field_0,
     args.brainreg_paths.deformation_field_1,
     args.brainreg_paths.deformation_field_2]
  let cell_list := cellsToPointList cells
  match args.signal_planes_paths with
  | [] =>
      ([Event.log .info "Transforming points to atlas space"],
       some "IndexError: list index out of range")
  | s0 :: _ =>
      let tc : TransformCall :=
        { points := cell_list
          signal_plane_path := s0
          orientation := args.orientation
          voxel_sizes := args.voxel_sizes
          downsampled_space := downsampled_space
          atlas := atlas
          deformation_field_paths := deformation_field_paths
          downsampled_points_path := args.paths.downsampled_points
          atlas_points_path := args.paths.atlas_points }
      let tr0 := [Event.log .info "Transforming points to atlas space",
                  Event.callTransform tc]
      match transform tc with
      | .error e => (tr0, some e)
      | .ok (transformed_cells, points_out_of_bounds) =>
          let tr1 := tr0 ++
            [Event.log .warning (oobWarning points_out_of_bounds.length),
             Event.log .info "Summarising cell positions"]
          let sc : SummariseCall :=
            { points := cell_list
              transformed_points := transformed_cells
              atlas := atlas
              volume_csv_path := args.brainreg_paths.volume_csv_path
              all_points_csv := args.paths.all_points_csv
              summary_csv := args.paths.summary_csv }
          match summarise sc with
          | .error e => (tr1 ++ [Event.callSummarise sc], some e)
          | .ok _ =>
              let tr2 := tr1 ++ [Event.callSummarise sc,
                Event.log .info "Exporting data to brainrender"]
              match atlas.resolution with
              | [] => (tr2, some "IndexError: list index out of range")
              | r0 :: _ =>
                  let ec : ExportCall :=
                    { transformed_points := transformed_cells
                      resolution := r0
                      brainrender_points := args.paths.brainrender_points }
                  match exportPoints ec with
                  | .error e => (tr2 ++ [Event.callExport ec], some e)
                  | .ok _ => (tr2 ++ [Event.callExport ec], none)

/-- Modelled from the spec: the Detect stage of the Workflow Orchestrator
(\"invoke the external detection/classification stage with the
configuration's signal/background file lists and thresholds; obtain an
ordered sequence of cell records; write them to the detected-cells output
path\"), whose source module is not among the provided files; the
remaining stages are the source-embedded `run`.  Each stage logs one
informational checkpoint message before execution. -/
def orchestrate (detect : DetectCall → Except String (List Cell))
    (transform : TransformCall → Except String (List (List Int) × List (List Int)))
    (summarise : SummariseCall → Except String Unit)
    (exportPoints : ExportCall → Except String Unit)
    (dc : DetectCall) (detected_cells_path : String)
    (args : Args) (atlas : Atlas) (downsampled_space : String) :
    List Event × Option String :=
  let tr0 := [Event.log .info "Detecting cells", Event.callDetect dc]
  match detect dc with
  | .error e => (tr0, some e)
  | .ok cells =>
      let tr1 := tr0 ++ [Event.writeFile detected_cells_path]
      let res := run transform summarise exportPoints args cells atlas downsampled_space
      (tr1 ++ res.1, res.2)

/-- The external-stage calls occurring in a trace, in order, by stage name. -/
def stageCallsIn (tr : List Event) : List String :=
  tr.filterMap fun e =>
    match e with
    | .callDetect _ => some "detect"
    | .callTransform _ => some "transform"
    | .callSummarise _ => some "summarise"
    | .callExport _ => some "export"
    | _ => none

/-- The namespace object returned by `config_parser`: it carries the single
resolved field `config`. -/
structure Namespace where
  config : String
deriving Repr, DecidableEq

/-- The token-consumption loop of the standard argument parser, restricted
to the parser built in `config_parser` (src/brainglobe_workflows/utils.py):
one option with short form `-c` and long form `--config` taking one value
(separated, `--config=VALUE`, or attached `-cVALUE`); any other token is an
unrecognized argument and fails with a usage error; a later occurrence
overrides an earlier one.  The automatic help option is not modelled. -/
def parseTokens : List String → String → Except String String
  | [], acc => .ok acc
  | a :: rest, acc =>
      if a = "-c" ∨ a = "--config" then
        match rest with
        | [] => .error "argument -c/--config: expected one argument"
        | v :: rest2 => parseTokens rest2 v
      else if "--config=".isPrefixOf a then
        parseTokens rest (a.drop 9)
      else if "-c".isPrefixOf a ∧ a ≠ "-c" ∧ ¬ ("--".isPrefixOf a) then
        parseTokens rest (a.drop 2)
      else
        .error ("unrecognized arguments: " ++ a)

/-- `config_parser` (src/brainglobe_workflows/utils.py): builds a parser
whose only option is `-c`/`--config` with the caller-supplied
`default_config` as default, and parses `argv` with it, returning a
namespace with the resolved `config` field (or a usage error). -/
def config_resolver (argv : List String) (default_config : String) :
    Except String Namespace :=
  (parseTokens argv default_config).map fun c => { config := c }

/-- Modelled from the spec: the error taxonomy of the Config Loader
(\"malformed JSON → parse error; unrecognized key → schema error; missing
input file → missing-data error; unwritable output location → filesystem
error\"); the loader module itself is not among the provided sources. -/
inductive LoaderError
  | parseError
  | schemaError (key : String)
  | missingData (file : String)
  | filesystemError (path : String)
deriving Repr, DecidableEq

/-- Modelled from the spec: the recognized configuration field names
(\"data source URL, integrity hash, local data directory, voxel size
triple, orientation code, signal/background directory lists, detection
thresholds, output-directory base name\"), plus the artifact file-name
fields the tests read (`detected_cells_filename`, `output_dir_basename`). -/
def recognizedFields : List String :=
  ["data_url", "data_hash", "input_data_dir", "voxel_sizes", "orientation",
   "signal_dir_path", "background_dir_path", "detection_threshold",
   "classification_threshold", "output_parent_dir", "output_dir_basename",
   "detected_cells_filename"]

/-- Modelled from the spec: the flat configuration record built by the
Config Loader from the JSON document's fields (values kept as raw strings;
the loader claims only inspect paths and names). -/
structure CellfinderConfig where
  data_url : String
  data_hash : String
  input_data_dir : String
  voxel_sizes : String
  orientation : String
  signal_dir_path : String
  background_dir_path : String
  detection_threshold : String
  classification_threshold : String
  output_parent_dir : String
  output_dir_basename : String
  detected_cells_filename : String
deriving Repr, DecidableEq

/-- Modelled from the spec: the derived (non-persisted) fields computed at
load time — resolved signal/background file lists, the timestamped output
directory path, and the detected-cells output file path. -/
structure DerivedPaths where
  list_signal_files : List String
  list_background_files : List String
  output_path : String
  detected_cells_path : String
deriving Repr, DecidableEq

/-- A filesystem snapshot: the set of existing files, a directory listing,
the set of existing directories, and the set of locations where directory
creation fails. -/
structure FS where
  files : List String
  dirContents : List (String × List String)
  dirs : List String
  unwritable : List String
deriving Repr, DecidableEq

/-- A wall-clock timestamp at second granularity. -/
structure Timestamp where
  year : Nat
  month : Nat
  day : Nat
  hour : Nat
  minute : Nat
  second : Nat
deriving Repr, DecidableEq

/-- The decimal digit character for `d % 10`. -/
def digitChar (d : Nat) : Char := Char.ofNat (48 + d % 10)

/-- Zero-padded two-digit decimal rendering (strftime `%m`/`%d`/`%H`/`%M`/`%S`). -/
def format2 (n : Nat) : String :=
  String.mk [digitChar (n / 10), digitChar n]

/-- Zero-padded four-digit decimal rendering (strftime `%Y` for years up to 9999). -/
def format4 (n : Nat) : String :=
  String.mk [digitChar (n / 1000), digitChar (n / 100), digitChar (n / 10), digitChar n]

/-- The 8-digit date part of the timestamp suffix (strftime `%Y%m%d`). -/
def dateStamp (t : Timestamp) : String :=
  format4 t.year ++ format2 t.month ++ format2 t.day

/-- The 6-digit time part of the timestamp suffix (strftime `%H%M%S`). -/
def timeStamp (t : Timestamp) : String :=
  format2 t.hour ++ format2 t.minute ++ format2 t.second

/-- Path join (POSIX separator). -/
def joinPath (a b : String) : String := a ++ "/" ++ b

/-- Modelled from the spec: the derived output-directory name — the
configured base name suffixed by the current timestamp formatted to
day-and-time granularity. -/
def outputDirName (cfg : CellfinderConfig) (t : Timestamp) : String :=
  cfg.output_dir_basename ++ dateStamp t ++ "_" ++ timeStamp t

/-- The image files listed in a directory, as full paths. -/
def listFilesIn (fs : FS) (dir : String) : List String :=
  ((fs.dirContents.lookup dir).getD []).map fun f => joinPath dir f

/-- Modelled from the spec: the path-derivation step of the Config Loader —
resolve the signal/background plane directories into concrete lists of
image-file paths, compute the timestamped output directory path by joining
the base directory with the derived name, and compute the detected-cells
output path by joining the output directory with the fixed file name. -/
def derivePaths (cfg : CellfinderConfig) (fs : FS) (t : Timestamp) : DerivedPaths :=
  let outPath := joinPath cfg.output_parent_dir (outputDirName cfg t)
  { list_signal_files := listFilesIn fs cfg.signal_dir_path
    list_background_files := listFilesIn fs cfg.background_dir_path
    output_path := outPath
    detected_cells_path := joinPath outPath cfg.detected_cells_filename }

/-- Modelled from the spec: the input-file validation step — fail with a
missing-data error if any configured signal/background file does not exist. -/
def validateInputFiles (fs : FS) (files : List String) : Except LoaderError Unit :=
  match files.find? (fun f => !(fs.files.contains f)) with
  | some f => .error (.missingData f)
  | none => .ok ()

/-- Modelled from the spec: create the output directory if absent; fail
with a filesystem error if creation is not possible. -/
def mkOutputDir (fs : FS) (p : String) : Except LoaderError FS :=
  if fs.dirs.contains p then .ok fs
  else if fs.unwritable.contains p then .error (.filesystemError p)
  else .ok { fs with dirs := p :: fs.dirs }

/-- Modelled from the spec: the validation-and-derivation phase of the
Config Loader on an already-built configuration object: derive paths,
validate that every listed signal/background file exists (missing-data
error otherwise), then create the output directory.  The filesystem is
returned alongside the result so that state changes are observable; on
any failure the filesystem is returned unchanged. -/
def addInputPaths (cfg : CellfinderConfig) (fs : FS) (t : Timestamp) :
    Except LoaderError (CellfinderConfig × DerivedPaths) × FS :=
  let d := derivePaths cfg fs t
  match validateInputFiles fs (d.list_signal_files ++ d.list_background_files) with
  | .error e => (.error e, fs)
  | .ok _ =>
      match mkOutputDir fs d.output_path with
      | .error e => (.error e, fs)
      | .ok fs2 => (.ok (cfg, d), fs2)

/-- A parsed JSON configuration document: a flat object, keys to raw values. -/
abbrev JsonDoc := List (String × String)

/-- The value of field `k` in the document, or the built-in default. -/
def getField (doc : JsonDoc) (k dflt : String) : String :=
  (doc.lookup k).getD dflt

/-- Modelled from the spec: the schema check of the Config Loader — the
JSON document's keys must be a subset of the recognized configuration
fields; an unknown key fails with a schema error. -/
def checkKeys (doc : JsonDoc) : Except LoaderError Unit :=
  match (doc.map Prod.fst).find? (fun k => !(recognizedFields.contains k)) with
  | some k => .error (.schemaError k)
  | none => .ok ()

/-- Modelled from the spec: building the configuration record from the
document's fields, with built-in defaults for absent fields. -/
def buildConfig (doc : JsonDoc) : CellfinderConfig :=
  { data_url := getField doc "data_url" ""
    data_hash := getField doc "data_hash" ""
    input_data_dir := getField doc "input_data_dir" ""
    voxel_sizes := getField doc "voxel_sizes" ""
    orientation := getField doc "orientation" ""
    signal_dir_path := getField doc "signal_dir_path" ""
    background_dir_path := getField doc "background_dir_path" ""
    detection_threshold := getField doc "detection_threshold" ""
    classification_threshold := getField doc "classification_threshold" ""
    output_parent_dir := getField doc "output_parent_dir" ""
    output_dir_basename := getField doc "output_dir_basename" "cellfinder_output_"
    detected_cells_filename := getField doc "detected_cells_filename" "detected_cells.xml" }

/-- Modelled from the spec: `read_cellfinder_config` — parse the JSON
document (keys must be a subset of the recognized fields), build the
configuration record, derive dependent paths, validate input files, and
create the output directory.  On any failure the filesystem is unchanged. -/
def read_cellfinder_config (doc : JsonDoc) (fs : FS) (t : Timestamp) :
    Except LoaderError (CellfinderConfig × DerivedPaths) × FS :=
  match checkKeys doc with
  | .error e => (.error e, fs)
  | .ok _ => addInputPaths (buildConfig doc) fs t

/-! ### Helper lemmas and concrete example inputs -/

/-- Appending one element per step in a left fold is the same as mapping. -/
theorem foldl_append_singleton (f : Cell → List Int) :
    ∀ (cells : List Cell) (init : List (List Int)),
      cells.foldl (fun acc c => acc ++ [f c]) init = init ++ cells.map f := by
  intro cells
  induction cells with
  | nil => intro init; simp
  | cons c cs ih => intro init; simp [List.foldl, ih]

/-- The cell-conversion loop of `analyse.run` maps each cell to `[z, y, x]`,
in iteration order. -/
theorem cellsToPointList_eq_map (cells : List Cell) :
    cellsToPointList cells = cells.map fun c => [c.z, c.y, c.x] := by
  simp [cellsToPointList, foldl_append_singleton]

/-- `digitChar` always produces a decimal digit character. -/
theorem digitChar_isDigit (d : Nat) : (digitChar d).isDigit := by
  have h : d % 10 < 10 := Nat.mod_lt _ (by norm_num)
  unfold digitChar
  set k := d % 10 with hk
  interval_cases k <;> decide

/-- An example timestamp. -/
def tEx : Timestamp := ⟨2026, 10, 12, 13, 45, 59⟩

/-- An example filesystem snapshot with one signal and one background file. -/
def fsEx : FS :=
  { files := ["sig/p0.tif", "bg/p0.tif"]
    dirContents := [("sig", ["p0.tif"]), ("bg", ["p0.tif"])]
    dirs := []
    unwritable := [] }

/-- An example configuration record. -/
def cfgEx : CellfinderConfig :=
  { data_url := ""
    data_hash := ""
    input_data_dir := "data"
    voxel_sizes := "[5, 2, 2]"
    orientation := "asl"
    signal_dir_path := "sig"
    background_dir_path := "bg"
    detection_threshold := "10"
    classification_threshold := "0.5"
    output_parent_dir := "out"
    output_dir_basename := "cellfinder_output_"
    detected_cells_filename := "detected_cells.xml" }

/-! ### Claim theorems -/

/-- Claim C10: the orchestrator converts each cell exposing coordinate components
`x`, `y`, `z` into the row `[z, y, x]` — the reverse of the attribute
order — and the resulting point array preserves the iteration order of the
input cells, one row per cell. -/
theorem run_cell_rows_are_zyx_in_order (cells : List Cell) :
    cellsToPointList cells = (cells.map fun c => [c.z, c.y, c.x]) ∧
    (cellsToPointList cells).length = cells.length := by
  refine ⟨cellsToPointList_eq_map cells, ?_⟩
  rw [cellsToPointList_eq_map cells]
  simp

/-- Claim C9: the CLI resolver invoked with an empty argument list returns a
namespace whose `config` field equals the caller-supplied default path
unchanged; invoked with `-c /tmp/x.json` or `--config /tmp/x.json` it
returns a namespace whose `config` field equals `/tmp/x.json`. -/
theorem config_resolver_default_and_explicit (default_config : String) :
    config_resolver [] default_config = .ok { config := default_config } ∧
    config_resolver ["-c", "/tmp/x.json"] default_config
      = .ok { config := "/tmp/x.json" } ∧
    config_resolver ["--config", "/tmp/x.json"] default_config
      = .ok { config := "/tmp/x.json" } := by
  refine ⟨rfl, ?_, ?_⟩ <;> rfl

/-- Claim C8: the derived detected-cells output path equals the derived output
directory joined with the fixed detected-cells file name. -/
theorem loader_detected_cells_path_is_join (cfg : CellfinderConfig) (fs : FS)
    (t : Timestamp) :
    (derivePaths cfg fs t).detected_cells_path
      = joinPath (derivePaths cfg fs t).output_path cfg.detected_cells_filename := rfl

/-- Claim C7: the derived output-directory name equals the configured base name
followed by an 8-digit date, an underscore, and a 6-digit time, and is
deterministic given the base configuration and a fixed timestamp. -/
theorem loader_output_dir_name_pattern (cfg : CellfinderConfig) (fs : FS)
    (t : Timestamp) :
    (derivePaths cfg fs t).output_path
      = joinPath cfg.output_parent_dir (outputDirName cfg t) ∧
    (∃ d tm : String,
      outputDirName cfg t = cfg.output_dir_basename ++ d ++ "_" ++ tm ∧
      d.length = 8 ∧ tm.length = 6 ∧
      d.data.all Char.isDigit = true ∧ tm.data.all Char.isDigit = true) ∧
    (∀ t2 : Timestamp, t2 = t → outputDirName cfg t2 = outputDirName cfg t) := by
  refine ⟨rfl, ⟨dateStamp t, timeStamp t, rfl, rfl, rfl, ?_, ?_⟩, ?_⟩
  · simp [dateStamp, format4, format2, digitChar_isDigit]
  · simp [timeStamp, format2, digitChar_isDigit]
  · intro t2 h; rw [h]

/-- Claim C1: for every configuration in which at least one listed signal or
background image file does not exist on disk, the Config Loader fails with
a missing-data error and does not create the output directory (the
filesystem is returned unchanged). -/
theorem loader_missing_file_fails_without_mkdir (cfg : CellfinderConfig)
    (fs : FS) (t : Timestamp)
    (h : ∃ f, f ∈ (derivePaths cfg fs t).list_signal_files
            ++ (derivePaths cfg fs t).list_background_files ∧ f ∉ fs.files) :
    ∃ f, (addInputPaths cfg fs t).1 = .error (.missingData f) ∧
      (addInputPaths cfg fs t).2 = fs ∧ f ∉ fs.files := by
  obtain ⟨f0, hf0, hnot⟩ := h
  have hp : (!(fs.files.contains f0)) = true := by
    simpa [List.elem_iff] using hnot
  have hex : ∃ a, ((derivePaths cfg fs t).list_signal_files
      ++ (derivePaths cfg fs t).list_background_files).find?
        (fun f => !(fs.files.contains f)) = some a ∧ (!(fs.files.contains a)) := by
    cases hfind : ((derivePaths cfg fs t).list_signal_files
        ++ (derivePaths cfg fs t).list_background_files).find?
          (fun f => !(fs.files.contains f)) with
    | none =>
        rw [List.find?_eq_none] at hfind
        exact absurd hp (by simpa using hfind f0 hf0)
    | some a =>
        have hpa := List.find?_some hfind
        exact ⟨a, rfl, hpa⟩
  obtain ⟨a, hfind, hpa⟩ := hex
  have hval : validateInputFiles fs ((derivePaths cfg fs t).list_signal_files
      ++ (derivePaths cfg fs t).list_background_files)
        = .error (.missingData a) := by
    unfold validateInputFiles
    rw [hfind]
  refine ⟨a, ?_, ?_, ?_⟩
  · simp only [addInputPaths, hval]
  · simp only [addInputPaths, hval]
  · simpa [List.elem_iff] using hpa

/-- Claim C2: the Config Loader accepts a JSON document only if its keys are a
subset of the recognized configuration field names; any document containing
an unrecognized key is rejected with a schema error naming such a key. -/
theorem loader_rejects_unknown_keys (doc : JsonDoc) (fs : FS) (t : Timestamp) :
    (∀ r fs2, read_cellfinder_config doc fs t = (.ok r, fs2) →
       ∀ k ∈ doc.map Prod.fst, k ∈ recognizedFields) ∧
    ((∃ k ∈ doc.map Prod.fst, k ∉ recognizedFields) →
       ∃ k, (read_cellfinder_config doc fs t).1 = .error (.schemaError k) ∧
         k ∈ doc.map Prod.fst ∧ k ∉ recognizedFields) := by
  constructor
  · intro r fs2 hok k hk
    cases hfind : (doc.map Prod.fst).find?
        (fun k => !(recognizedFields.contains k)) with
    | none =>
        rw [List.find?_eq_none] at hfind
        have := hfind k hk
        simpa [List.elem_iff] using this
    | some a =>
        have hchk : checkKeys doc = .error (.schemaError a) := by
          unfold checkKeys
          rw [hfind]
        rw [read_cellfinder_config, hchk] at hok
        simp at hok
  · intro h
    obtain ⟨k0, hk0, hnot⟩ := h
    have hp : (!(recognizedFields.contains k0)) = true := by
      simpa [List.elem_iff] using hnot
    have hex : ∃ a, (doc.map Prod.fst).find?
        (fun k => !(recognizedFields.contains k)) = some a ∧
        (!(recognizedFields.contains a)) := by
      cases hfind : (doc.map Prod.fst).find?
          (fun k => !(recognizedFields.contains k)) with
      | none =>
          rw [List.find?_eq_none] at hfind
          exact absurd hp (by simpa using hfind k0 hk0)
      | some a =>
          have hpa := List.find?_some hfind
          exact ⟨a, rfl, hpa⟩
    obtain ⟨a, hfind, hpa⟩ := hex
    have hchk : checkKeys doc = .error (.schemaError a) := by
      unfold checkKeys
      rw [hfind]
    refine ⟨a, ?_, List.mem_of_find?_eq_some hfind, ?_⟩
    · rw [read_cellfinder_config, hchk]
    · simpa [List.elem_iff] using hpa

/-- Claim C3: the Transform step converts each detected cell into a plain
three-component coordinate row and invokes the external
point-transformation stage with these points, the configuration's
orientation, voxel sizes, and exactly the three deformation-field path
fields of the configuration, in order 0, 1, 2; the transformed points and
out-of-bounds list it receives back are what the run then uses (the
transformed points are handed to the summarisation call). -/
theorem run_transform_call_arguments
    (transform : TransformCall → Except String (List (List Int) × List (List Int)))
    (summarise : SummariseCall → Except String Unit)
    (exportPoints : ExportCall → Except String Unit)
    (args : Args) (cells : List Cell) (atlas : Atlas) (downsampled_space : String)
    (s0 : String) (rest : List String)
    (hsig : args.signal_planes_paths = s0 :: rest)
    (tp oob : List (List Int))
    (htr : ∀ c, transform c = .ok (tp, oob)) :
    (run transform summarise exportPoints args cells atlas downsampled_space).1.get? 1
      = some (Event.callTransform
        { points := cells.map fun c => [c.z, c.y, c.x]
          signal_plane_path := s0
          orientation := args.orientation
          voxel_sizes := args.voxel_sizes
          downsampled_space := downsampled_space
          atlas := atlas
          deformation_field_paths :=
            [args.brainreg_paths.deformation_field_0,
             args.brainreg_paths.deformation_field_1,
             args.brainreg_paths.deformation_field_2]
          downsampled_points_path := args.paths.downsampled_points
          atlas_points_path := args.paths.atlas_points }) ∧
    Event.log .warning (oobWarning oob.length)
      ∈ (run transform summarise exportPoints args cells atlas downsampled_space).1 ∧
    Event.callSummarise
        { points := cells.map fun c => [c.z, c.y, c.x]
          transformed_points := tp
          atlas := atlas
          volume_csv_path := args.brainreg_paths.volume_csv_path
          all_points_csv := args.paths.all_points_csv
          summary_csv := args.paths.summary_csv }
      ∈ (run transform summarise exportPoints args cells atlas downsampled_space).1 := by
  unfold run
  rw [hsig]
  simp only [htr, cellsToPointList_eq_map]
  refine ⟨?_, ?_, ?_⟩
  · split <;> (try split) <;> (try split) <;> rfl
  · split <;> (try split) <;> (try split) <;> simp
  · split <;> (try split) <;> (try split) <;> simp

/-- Claim C4: when the Transform step returns at least one out-of-bounds point,
the orchestrator logs a warning whose text starts with the exact
out-of-bounds count, raises no error for this condition, and still
executes the Summarise and Export stages to completion. -/
theorem run_oob_warning_is_nonfatal
    (transform : TransformCall → Except String (List (List Int) × List (List Int)))
    (summarise : SummariseCall → Except String Unit)
    (exportPoints : ExportCall → Except String Unit)
    (args : Args) (cells : List Cell) (atlas : Atlas) (downsampled_space : String)
    (s0 : String) (rest : List String)
    (hsig : args.signal_planes_paths = s0 :: rest)
    (tp oob : List (List Int)) (hoob : oob ≠ [])
    (htr : ∀ c, transform c = .ok (tp, oob))
    (hsum : ∀ c, summarise c = .ok ())
    (r0 : Int) (rrest : List Int)
    (hres : atlas.resolution = r0 :: rrest)
    (hexp : ∀ c, exportPoints c = .ok ()) :
    (run transform summarise exportPoints args cells atlas downsampled_space).2
      = none ∧
    Event.log .warning (oobWarning oob.length)
      ∈ (run transform summarise exportPoints args cells atlas downsampled_space).1 ∧
    oobWarning oob.length = toString oob.length ++
      " points ignored due to falling outside of atlas. This may be due to inaccuracies with cell detection or registration. Please inspect the results." ∧
    1 ≤ oob.length ∧
    (∃ sc, Event.callSummarise sc
      ∈ (run transform summarise exportPoints args cells atlas downsampled_space).1) ∧
    (∃ ec, Event.callExport ec
      ∈ (run transform summarise exportPoints args cells atlas downsampled_space).1) := by
  unfold run
  rw [hsig]
  simp only [htr, hsum, hres, hexp]
  refine ⟨?_, ?_, ?_, ?_, ?_, ?_⟩
  · trivial
  · simp
  · simp only [oobWarning, String.append_assoc]
    congr 1
  · exact Nat.one_le_iff_ne_zero.mpr (by simpa using hoob)
  · exact ⟨{ points := cellsToPointList cells
             transformed_points := tp
             atlas := atlas
             volume_csv_path := args.brainreg_paths.volume_csv_path
             all_points_csv := args.paths.all_points_csv
             summary_csv := args.paths.summary_csv }, by simp⟩
  · exact ⟨{ transformed_points := tp
             resolution := r0
             brainrender_points := args.paths.brainrender_points }, by simp⟩

/-- Claim C6: a run of the orchestrator executes its stages in the fixed linear
order Detect, Transform, Summarise, Export, with exactly one informational
checkpoint log before each stage and no other events than the single
out-of-bounds warning and the detected-cells file write: the whole trace
of a successful run is this exact event sequence. -/
theorem orchestrate_fixed_linear_order
    (detect : DetectCall → Except String (List Cell))
    (transform : TransformCall → Except String (List (List Int) × List (List Int)))
    (summarise : SummariseCall → Except String Unit)
    (exportPoints : ExportCall → Except String Unit)
    (dc : DetectCall) (detected_cells_path : String)
    (args : Args) (atlas : Atlas) (downsampled_space : String)
    (cells : List Cell) (s0 : String) (rest : List String)
    (tp oob : List (List Int)) (r0 : Int) (rrest : List Int)
    (hdet : ∀ c, detect c = .ok cells)
    (hsig : args.signal_planes_paths = s0 :: rest)
    (htr : ∀ c, transform c = .ok (tp, oob))
    (hsum : ∀ c, summarise c = .ok ())
    (hres : atlas.resolution = r0 :: rrest)
    (hexp : ∀ c, exportPoints c = .ok ()) :
    orchestrate detect transform summarise exportPoints dc detected_cells_path
        args atlas downsampled_space
      = ([Event.log .info "Detecting cells",
          Event.callDetect dc,
          Event.writeFile detected_cells_path,
          Event.log .info "Transforming points to atlas space",
          Event.callTransform
            { points := cells.map fun c => [c.z, c.y, c.x]
              signal_plane_path := s0
              orientation := args.orientation
              voxel_sizes := args.voxel_sizes
              downsampled_space := downsampled_space
              atlas := atlas
              deformation_field_paths :=
                [args.brainreg_paths.deformation_field_0,
                 args.brainreg_paths.deformation_field_1,
                 args.brainreg_paths.deformation_field_2]
              downsampled_points_path := args.paths.downsampled_points
              atlas_points_path := args.paths.atlas_points },
          Event.log .warning (oobWarning oob.length),
          Event.log .info "Summarising cell positions",
          Event.callSummarise
            { points := cells.map fun c => [c.z, c.y, c.x]
              transformed_points := tp
              atlas := atlas
              volume_csv_path := args.brainreg_paths.volume_csv_path
              all_points_csv := args.paths.all_points_csv
              summary_csv := args.paths.summary_csv },
          Event.log .info "Exporting data to brainrender",
          Event.callExport
            { transformed_points := tp
              resolution := r0
              brainrender_points := args.paths.brainrender_points }], none) := by
  unfold orchestrate run
  rw [hdet, hsig]
  simp only [htr, hsum, hres, hexp, cellsToPointList_eq_map]
  rfl

/-- Claim C5: when an external stage raises an error, the orchestrator
propagates that very error value unchanged, invokes no subsequent stage
(the stage-call sequence of the trace stops at the failing stage, with no
retries), and the detected-cells file written by the earlier Detect stage
remains in the trace (partial-result semantics, no rollback). -/
theorem orchestrate_propagates_stage_errors
    (detect : DetectCall → Except String (List Cell))
    (transform : TransformCall → Except String (List (List Int) × List (List Int)))
    (summarise : SummariseCall → Except String Unit)
    (exportPoints : ExportCall → Except String Unit)
    (dc : DetectCall) (detected_cells_path : String)
    (args : Args) (atlas : Atlas) (downsampled_space : String)
    (e : String) (cells : List Cell) (tp oob : List (List Int))
    (s0 : String) (rest : List String) (r0 : Int) (rrest : List Int)
    (hsig : args.signal_planes_paths = s0 :: rest)
    (hres : atlas.resolution = r0 :: rrest) :
    ((∀ c, detect c = .error e) →
      orchestrate detect transform summarise exportPoints dc detected_cells_path
          args atlas downsampled_space
        = ([Event.log .info "Detecting cells", Event.callDetect dc], some e)) ∧
    ((∀ c, detect c = .ok cells) → (∀ c, transform c = .error e) →
      (orchestrate detect transform summarise exportPoints dc detected_cells_path
          args atlas downsampled_space).2 = some e ∧
      stageCallsIn (orchestrate detect transform summarise exportPoints dc
          detected_cells_path args atlas downsampled_space).1
        = ["detect", "transform"] ∧
      Event.writeFile detected_cells_path
        ∈ (orchestrate detect transform summarise exportPoints dc
            detected_cells_path args atlas downsampled_space).1) ∧
    ((∀ c, detect c = .ok cells) → (∀ c, transform c = .ok (tp, oob)) →
      (∀ c, summarise c = .error e) →
      (orchestrate detect transform summarise exportPoints dc detected_cells_path
          args atlas downsampled_space).2 = some e ∧
      stageCallsIn (orchestrate detect transform summarise exportPoints dc
          detected_cells_path args atlas downsampled_space).1
        = ["detect", "transform", "summarise"] ∧
      Event.writeFile detected_cells_path
        ∈ (orchestrate detect transform summarise exportPoints dc
            detected_cells_path args atlas downsampled_space).1) ∧
    ((∀ c, detect c = .ok cells) → (∀ c, transform c = .ok (tp, oob)) →
      (∀ c, summarise c = .ok ()) → (∀ c, exportPoints c = .error e) →
      (orchestrate detect transform summarise exportPoints dc detected_cells_path
          args atlas downsampled_space).2 = some e ∧
      stageCallsIn (orchestrate detect transform summarise exportPoints dc
          detected_cells_path args atlas downsampled_space).1
        = ["detect", "transform", "summarise", "export"] ∧
      Event.writeFile detected_cells_path
        ∈ (orchestrate detect transform summarise exportPoints dc
            detected_cells_path args atlas downsampled_space).1) := by
  refine ⟨?_, ?_, ?_, ?_⟩
  · intro hdet
    unfold orchestrate
    rw [hdet]
  · intro hdet htr
    unfold orchestrate run
    rw [hdet, hsig]
    simp only [htr]
    exact ⟨trivial, by rfl, by simp⟩
  · intro hdet htr hsum
    unfold orchestrate run
    rw [hdet, hsig]
    simp only [htr, hsum]
    exact ⟨trivial, by rfl, by simp⟩
  · intro hdet htr hsum hexp
    unfold orchestrate run
    rw [hdet, hsig]
    simp only [htr, hsum, hres, hexp]
    exact ⟨trivial, by rfl, by simp⟩

/-- An example filesystem snapshot in which the signal file is missing. -/
def fsMissEx : FS :=
  { files := ["bg/p0.tif"]
    dirContents := [("sig", ["p0.tif"]), ("bg", ["p0.tif"])]
    dirs := []
    unwritable := [] }

/-- An example JSON document with an unrecognized key. -/
def docBadEx : JsonDoc := [("data_url", "http://x"), ("bogus_key", "1")]

/-- An example detection-stage argument tuple. -/
def dcEx : DetectCall :=
  { signal_files := ["sig/p0.tif"]
    background_files := ["bg/p0.tif"]
    thresholds := [10] }

/-- An example configuration namespace for the orchestrator. -/
def argsEx : Args :=
  { brainreg_paths :=
      { deformation_field_0 := "reg/def0.tiff"
        deformation_field_1 := "reg/def1.tiff"
        deformation_field_2 := "reg/def2.tiff"
        volume_csv_path := "reg/volumes.csv" }
    signal_planes_paths := ["sig"]
    orientation := "asl"
    voxel_sizes := ["5", "2", "2"]
    paths :=
      { downsampled_points := "out/downsampled.points"
        atlas_points := "out/atlas.points"
        all_points_csv := "out/all_points.csv"
        summary_csv := "out/summary.csv"
        brainrender_points := "out/points.npy" } }

/-- An example atlas. -/
def atlasEx : Atlas := { name := "allen_mouse_25um", resolution := [25, 25, 25] }

/-- Two example detected cells. -/
def cellsEx : List Cell := [⟨1, 2, 3⟩, ⟨4, 5, 6⟩]

/-- An always-succeeding detection collaborator. -/
def detectOkEx : DetectCall → Except String (List Cell) := fun _ => .ok cellsEx

/-- A transform collaborator returning one transformed point and one
out-of-bounds point. -/
def transformOkEx : TransformCall → Except String (List (List Int) × List (List Int)) :=
  fun _ => .ok ([[3, 2, 1]], [[9, 9, 9]])

/-- A transform collaborator that always raises. -/
def transformFailEx : TransformCall → Except String (List (List Int) × List (List Int)) :=
  fun _ => .error "boom"

/-- An always-succeeding summarisation collaborator. -/
def summariseOkEx : SummariseCall → Except String Unit := fun _ => .ok ()

/-- An always-succeeding export collaborator. -/
def exportOkEx : ExportCall → Except String Unit := fun _ => .ok ()

/-- Claim C1 witness: a concrete configuration with a missing signal file. -/
theorem loader_missing_file_fails_without_mkdir_witness :
    ∃ f, (addInputPaths cfgEx fsMissEx tEx).1 = .error (.missingData f) ∧
      (addInputPaths cfgEx fsMissEx tEx).2 = fsMissEx ∧ f ∉ fsMissEx.files :=
  loader_missing_file_fails_without_mkdir cfgEx fsMissEx tEx
    ⟨"sig/p0.tif", by decide, by decide⟩

/-- Claim C2 witness: a concrete document with an unrecognized key is rejected. -/
theorem loader_rejects_unknown_keys_witness :
    ∃ k, (read_cellfinder_config docBadEx fsEx tEx).1 = .error (.schemaError k) ∧
      k ∈ docBadEx.map Prod.fst ∧ k ∉ recognizedFields :=
  (loader_rejects_unknown_keys docBadEx fsEx tEx).2 ⟨"bogus_key", by decide, by decide⟩

/-- Claim C3 witness: the warning and summarise call on a concrete run. -/
theorem run_transform_call_arguments_witness :
    Event.log .warning (oobWarning 1)
      ∈ (run transformOkEx summariseOkEx exportOkEx argsEx cellsEx atlasEx "ds").1 :=
  ((run_transform_call_arguments transformOkEx summariseOkEx exportOkEx argsEx
    cellsEx atlasEx "ds" "sig" [] rfl [[3, 2, 1]] [[9, 9, 9]] (fun _ => rfl)).2).1

/-- Claim C4 witness: a concrete run with one out-of-bounds point finishes
without error. -/
theorem run_oob_warning_is_nonfatal_witness :
    (run transformOkEx summariseOkEx exportOkEx argsEx cellsEx atlasEx "ds").2
      = none ∧
    1 ≤ ([[9, 9, 9]] : List (List Int)).length := by
  have h := run_oob_warning_is_nonfatal transformOkEx summariseOkEx exportOkEx
    argsEx cellsEx atlasEx "ds" "sig" [] rfl [[3, 2, 1]] [[9, 9, 9]] (by decide)
    (fun _ => rfl) (fun _ => rfl) 25 [25, 25] rfl (fun _ => rfl)
  exact ⟨h.1, h.2.2.2.1⟩

/-- Claim C5 witness: a concrete run whose transform stage raises `"boom"`. -/
theorem orchestrate_propagates_stage_errors_witness :
    (orchestrate detectOkEx transformFailEx summariseOkEx exportOkEx dcEx
        "out/detected_cells.xml" argsEx atlasEx "ds").2 = some "boom" ∧
    stageCallsIn (orchestrate detectOkEx transformFailEx summariseOkEx exportOkEx
        dcEx "out/detected_cells.xml" argsEx atlasEx "ds").1
      = ["detect", "transform"] ∧
    Event.writeFile "out/detected_cells.xml"
      ∈ (orchestrate detectOkEx transformFailEx summariseOkEx exportOkEx dcEx
          "out/detected_cells.xml" argsEx atlasEx "ds").1 :=
  (orchestrate_propagates_stage_errors detectOkEx transformFailEx summariseOkEx
    exportOkEx dcEx "out/detected_cells.xml" argsEx atlasEx "ds" "boom" cellsEx
    [[3, 2, 1]] [[9, 9, 9]] "sig" [] 25 [25, 25] rfl rfl).2.1
      (fun _ => rfl) (fun _ => rfl)

/-- Claim C6 witness: a concrete successful run finishes with no error. -/
theorem orchestrate_fixed_linear_order_witness :
    (orchestrate detectOkEx transformOkEx summariseOkEx exportOkEx dcEx
        "out/detected_cells.xml" argsEx atlasEx "ds").2 = none := by
  rw [orchestrate_fixed_linear_order detectOkEx transformOkEx summariseOkEx
    exportOkEx dcEx "out/detected_cells.xml" argsEx atlasEx "ds" cellsEx "sig" []
    [[3, 2, 1]] [[9, 9, 9]] 25 [25, 25] (fun _ => rfl) rfl (fun _ => rfl)
    (fun _ => rfl) rfl (fun _ => rfl)]

/-- Claim C7 witness: the pattern at a concrete configuration and timestamp. -/
theorem loader_output_dir_name_pattern_witness :
    outputDirName cfgEx tEx
      = cfgEx.output_dir_basename ++ "20261012" ++ "_" ++ "134559" ∧
    outputDirName cfgEx tEx = outputDirName cfgEx tEx := by
  constructor
  · rfl
  · exact (loader_output_dir_name_pattern cfgEx fsEx tEx).2.2 tEx rfl

end BrainglobeWorkflows
